import Mathlib

/-!
Shallow embedding of the WisprClaw whisper gateway
(`src/gateway/whisper_gateway.py`) and proofs about its specification.

The embedding models, from the source:
  * `_is_truthy`                      (lines 15-18)
  * `configure_whisper_download_tls`  (lines 98-125)
  * `extract_compressed_text`         (lines 201-214)
  * `compress_transcript`             (lines 217-233)
  * eager numeric configuration parsing (lines 89-91)
  * the `/transcribe` request handler (lines 241-302), with explicit fault
    injection for the staging / removal steps so that every exit path of the
    `try`/`finally` block is represented.
-/

namespace WisprClaw

/-- Python `str.strip()`: drop whitespace from both ends. -/
def pyStrip (s : String) : String :=
  String.mk (((s.data.dropWhile Char.isWhitespace).reverse.dropWhile
    Char.isWhitespace).reverse)

/-- Python `str.lower()` (ASCII case folding suffices for the claims). -/
def pyLower (s : String) : String :=
  String.mk (s.data.map Char.toLower)

/-! ## Python value model for compression results

LLMLingua may return a bare string, a dict, or (in the degenerate case the
spec discusses) some other object such as an integer.  `PyVal.other` covers
every non-string non-dict shape. -/

inductive PyVal where
  | str (s : String)
  | dict (entries : List (String × PyVal))
  | other (tag : Int)

/-- Python `dict.get`: first binding of the key, if any. -/
def dictGet (entries : List (String × PyVal)) (k : String) : Option PyVal :=
  match entries with
  | [] => none
  | (k', v) :: rest => if k' = k then some v else dictGet rest k

/-- The fixed key priority of `extract_compressed_text` (line 207). -/
def extractKeys : List String :=
  ["compressed_prompt", "compressed_text", "prompt", "text"]

/-- The `for key in (...)` loop of lines 207-210: first key whose value is a
string yields that string, stripped; a key bound to a non-string is skipped. -/
def tryKeys (entries : List (String × PyVal)) : List String → Option String
  | [] => none
  | k :: ks =>
    match dictGet entries k with
    | some (.str v) => some (pyStrip v)
    | _ => tryKeys entries ks

/-- Message of the `RuntimeError` raised at line 214. -/
def unrecognizedMsg : String := "LLMLingua returned an unexpected compression result"

/-- Embedding of `extract_compressed_text` (lines 201-214).  `Except` models the
`RuntimeError`; `if original_text:` is Python string truthiness. -/
def extract_compressed_text (compression_result : PyVal)
    (original_text : String) : Except String String :=
  match compression_result with
  | .str s => .ok (pyStrip s)
  | .dict entries =>
    match tryKeys entries extractKeys with
    | some v => .ok v
    | none =>
      if original_text ≠ "" then .ok original_text else .error unrecognizedMsg
  | .other _ =>
      if original_text ≠ "" then .ok original_text else .error unrecognizedMsg

/-- Whether a compression result has one of the shapes `extract_compressed_text`
recognizes without resorting to the `original_text` fallback. -/
def recognizedShape (r : PyVal) : Bool :=
  match r with
  | .str _ => true
  | .dict entries => (tryKeys entries extractKeys).isSome
  | .other _ => false

/-! ## Boolean environment parsing -/

/-- The truthy token set of `_is_truthy` (line 18). -/
def truthyTokens : List String := ["1", "true", "yes", "on"]

/-- Embedding of `_is_truthy` (lines 15-18): `None` yields the default, otherwise membership
of the stripped lowercased value in the truthy set. -/
def _is_truthy (value : Option String) (default : Bool := false) : Bool :=
  match value with
  | none => default
  | some v => pyLower (pyStrip v) ∈ truthyTokens

/-! ## Compressor model

`get_compressor` returns a `PromptCompressor`; `compress_transcript` calls
`compress_prompt_llmlingua2` when `LLMLINGUA_USE_V2` is set and the method
exists, retrying once with `compress_prompt` on a `TypeError`.  The two
methods are opaque capabilities, so they are fields of the record; a call
either returns a Python value, raises `TypeError`, or raises something else. -/

inductive PyCallResult where
  | ok (v : PyVal)
  | typeError
  | otherError (msg : String)

structure Compressor where
  hasLL2method : Bool
  compressPromptLL2 : List String → ℚ → PyCallResult
  compressPrompt : List String → ℚ → PyCallResult

structure CompressorCfg where
  useV2 : Bool
  rate : ℚ

/-- The `try`/`except TypeError` call of lines 225-231: the v2 entry point when
configured and available, retried once via `compress_prompt` on `TypeError`;
a `TypeError` from the retry itself propagates. -/
def compressorCall (cfg : CompressorCfg) (c : Compressor)
    (context : List String) : PyCallResult :=
  let firstCall :=
    if cfg.useV2 ∧ c.hasLL2method then c.compressPromptLL2 context cfg.rate
    else c.compressPrompt context cfg.rate
  match firstCall with
  | .typeError => c.compressPrompt context cfg.rate
  | r => r

/-- Embedding of `compress_transcript` (lines 217-233).  The compressor handle is passed
explicitly (the code obtains it from `get_compressor`). -/
def compress_transcript (cfg : CompressorCfg) (c : Compressor)
    (text : String) : Except String String :=
  let clean_text := pyStrip text
  if clean_text = "" then .ok clean_text
  else
    match compressorCall cfg c [clean_text] with
    | .ok v => extract_compressed_text v clean_text
    | .typeError => .error "TypeError"
    | .otherError m => .error m

/-! ## TLS trust configuration

`configure_whisper_download_tls` (lines 98-125) reads the insecure flag, the
explicit `WHISPER_SSL_CA_FILE`, the ambient `SSL_CERT_FILE`, and (lazily) the
`certifi.where()` bundled default; the filesystem is abstracted as an
`isFile` predicate.  `certifiWhere = none` models both an `ImportError` and
any other exception of the `try` block at lines 112-117. -/

structure TlsEnv where
  insecureDownload : Bool
  whisperSslCaFile : Option String
  sslCertFileEnv : Option String
  certifiWhere : Option String
  isFile : String → Bool

inductive TrustContext where
  | insecure
  | verified (cafile : String)
  | platformDefault
deriving DecidableEq, Repr

/-- Python `a or b` on optional strings: the left value unless it is `None`
or empty. -/
def pyOrStr (a b : Option String) : Option String :=
  match a with
  | some s => if s = "" then b else some s
  | none => b

/-- Python truthiness of an optional string. -/
def pyTruthy (a : Option String) : Bool :=
  match a with
  | some s => s ≠ ""
  | none => false

/-- Embedding of `configure_whisper_download_tls` (lines 98-125), as the trust context it
installs.  `platformDefault` is the `if ca_file:` guard at line 119 failing,
which leaves the platform default trust in effect. -/
def configure_whisper_download_tls (env : TlsEnv) : TrustContext :=
  if env.insecureDownload then .insecure
  else
    let ca0 := pyOrStr env.whisperSslCaFile env.sslCertFileEnv
    let ca1 := if pyTruthy ca0 ∧ ¬ env.isFile (ca0.getD "") then none else ca0
    let ca2 := if ¬ pyTruthy ca1 then env.certifiWhere else ca1
    match ca2 with
    | some s => if s ≠ "" then .verified s else .platformDefault
    | none => .platformDefault

/-- Modelled from the spec: the resolution order the claim describes — try the
explicitly configured path, then the ambient trust-store variable, then the
bundled default lookup, then none, where every candidate whose file does not
exist is treated as absent and resolution falls through to the next source. -/
def specCaResolve (env : TlsEnv) : Option String :=
  ([env.whisperSslCaFile, env.sslCertFileEnv, env.certifiWhere].filterMap id).find?
    env.isFile

/-- Modelled from the spec: the trust context the claim's resolution order
produces. -/
def specTrustContext (env : TlsEnv) : TrustContext :=
  if env.insecureDownload then .insecure
  else
    match specCaResolve env with
    | some s => .verified s
    | none => .platformDefault

/-- The resolution the code actually performs, restated in priority-list form:
the explicit path, when non-empty, is the only explicit/ambient candidate (the
ambient variable is consulted only when the explicit one is unset or empty);
one existence check applies to that combined candidate, and on failure
resolution falls directly to the bundled default lookup, whose result is used
without an existence check. -/
def amendedCaResolve (env : TlsEnv) : Option String :=
  match pyOrStr env.whisperSslCaFile env.sslCertFileEnv with
  | some s => if s ≠ "" ∧ env.isFile s then some s else env.certifiWhere
  | none => env.certifiWhere

/-- The trust context under `amendedCaResolve`. -/
def amendedTrustContext (env : TlsEnv) : TrustContext :=
  if env.insecureDownload then .insecure
  else
    match amendedCaResolve env with
    | some s => if s ≠ "" then .verified s else .platformDefault
    | none => .platformDefault

/-! ## Eager numeric configuration parsing (lines 89-91) -/

/-- Value of a digit list read in base 10 (callers ensure all are digits). -/
def natOfDigits (cs : List Char) : Nat :=
  cs.foldl (fun n c => n * 10 + (c.toNat - 48)) 0

/-- Modelled Python `float()` on plain decimal literals: optional sign, then
digits with an optional fractional part.  `none` models the `ValueError` that
aborts startup; exotic accepted spellings (exponents, `inf`, `nan`) are not
needed by the claims. -/
def pyFloat (s : String) : Option ℚ :=
  let t := (pyStrip s).data
  let signed : Bool × List Char :=
    match t with
    | '-' :: cs => (true, cs)
    | '+' :: cs => (false, cs)
    | cs => (false, cs)
  let ip := signed.2.takeWhile Char.isDigit
  let rest := signed.2.dropWhile Char.isDigit
  let core : Option ℚ :=
    match rest with
    | [] => if ip.isEmpty then none else some (mkRat (natOfDigits ip) 1)
    | '.' :: fp =>
      if fp.all Char.isDigit ∧ ¬(ip.isEmpty ∧ fp.isEmpty) then
        some (mkRat (natOfDigits ip * 10 ^ fp.length + natOfDigits fp) (10 ^ fp.length))
      else none
    | _ => none
  core.map (fun q => if signed.1 then -q else q)

/-- Modelled Python `int()` on decimal literals: optional sign then digits. -/
def pyInt (s : String) : Option Int :=
  let t := (pyStrip s).data
  let signed : Bool × List Char :=
    match t with
    | '-' :: cs => (true, cs)
    | '+' :: cs => (false, cs)
    | cs => (false, cs)
  if ¬ signed.2.isEmpty ∧ signed.2.all Char.isDigit then
    some (if signed.1 then -(natOfDigits signed.2 : Int) else (natOfDigits signed.2 : Int))
  else none

/-- Embedding of `LLMLINGUA_RATE = float(os.getenv("LLMLINGUA_RATE", "0.6"))` (line 89);
`none` is the startup configuration error. -/
def resolveLlmlinguaRate (env : Option String) : Option ℚ :=
  pyFloat (env.getD "0.6")

/-- Embedding of `MAX_AUDIO_BYTES = int(os.getenv("MAX_AUDIO_MB", "25")) * 1024 * 1024`
(line 91); `none` is the startup configuration error. -/
def resolveMaxAudioBytes (env : Option String) : Option Int :=
  (pyInt (env.getD "25")).map (· * 1024 * 1024)

/-! ## The `/transcribe` request handler (lines 241-302)

The handler is embedded as a function of the request data, the relevant
configuration, a fault model for the staging steps, and the two opaque model
capabilities.  Its result records, besides the HTTP outcome, whether a staged
temporary file was created, whether one remains on disk after the `finally`
block, whether the transcription model was invoked, and the `should_compress`
decision (absent when validation rejected the request before line 263). -/

inductive GwError where
  | httpError (status : Nat) (detail : String)
deriving DecidableEq, Repr

structure RequestEnv where
  rawAudio : List Nat
  compressParam : Option String
  llmlinguaEnabled : Bool
  maxAudioBytes : Int
deriving DecidableEq, Repr

/-- Fault model for the staged steps of the `try` block: creation of the
temporary file (line 272), the write to it (line 273), the transcription
stage (`get_model` plus `model.transcribe`, lines 276-277, whose successful
outcome is the `result.get("text")` value), and the `os.remove` of the
`finally` block (line 299). -/
structure FaultEnv where
  createOk : Bool
  writeOk : Bool
  modelResult : Except String (Option String)
  removeOk : Bool

structure HandlerTrace where
  response : Except GwError String
  fileCreated : Bool
  fileRemains : Bool
  modelInvoked : Bool
  shouldCompress : Option Bool

/-- Embedding of `(result.get("text") or "").strip()` (line 278): the transcription
service's output for a raw `text` field. -/
def transcriptionResult (whisperText : Option String) : String :=
  pyStrip (whisperText.getD "")

/-- The `transcribe` handler (lines 241-302).  Validation happens before any
staging; `temp_path` is assigned only after the write succeeds, so a write
failure leaves the created file behind (`finally` skips removal when
`temp_path` is empty); every later path runs the removal attempt. -/
def transcribe_handler (cfg : CompressorCfg) (c : Compressor)
    (env : RequestEnv) (fe : FaultEnv) : HandlerTrace :=
  if env.rawAudio.length = 0 then
    { response := .error (.httpError 400 "Empty audio upload"),
      fileCreated := false, fileRemains := false, modelInvoked := false,
      shouldCompress := none }
  else if (env.rawAudio.length : Int) > env.maxAudioBytes then
    { response := .error (.httpError 413
        ("Audio too large. Max allowed is " ++ toString env.maxAudioBytes ++ " bytes")),
      fileCreated := false, fileRemains := false, modelInvoked := false,
      shouldCompress := none }
  else
    let should_compress : Bool :=
      match env.compressParam with
      | some v => _is_truthy (some v)
      | none => env.llmlinguaEnabled
    if ¬ fe.createOk then
      { response := .error (.httpError 500 "Transcription failed: staging"),
        fileCreated := false, fileRemains := false, modelInvoked := false,
        shouldCompress := some should_compress }
    else if ¬ fe.writeOk then
      { response := .error (.httpError 500 "Transcription failed: staging"),
        fileCreated := true, fileRemains := true, modelInvoked := false,
        shouldCompress := some should_compress }
    else
      let remains := ! fe.removeOk
      match fe.modelResult with
      | .error msg =>
        { response := .error (.httpError 500 msg),
          fileCreated := true, fileRemains := remains, modelInvoked := true,
          shouldCompress := some should_compress }
      | .ok whisperText =>
        let original_text := transcriptionResult whisperText
        let compressed : Except String String :=
          if should_compress then compress_transcript cfg c original_text
          else .ok original_text
        match compressed with
        | .ok t =>
          { response := .ok t,
            fileCreated := true, fileRemains := remains, modelInvoked := true,
            shouldCompress := some should_compress }
        | .error msg =>
          { response := .error (.httpError 500 msg),
            fileCreated := true, fileRemains := remains, modelInvoked := true,
            shouldCompress := some should_compress }

/-! ## Concrete fixtures used by counterexamples and witnesses -/

/-- A configuration with the documented defaults (`LLMLINGUA_USE_V2` on,
rate 0.6). -/
def cfg0 : CompressorCfg := { useV2 := true, rate := mkRat 3 5 }

/-- A compressor whose calls return an unrecognized shape (an integer). -/
def badCompressor : Compressor :=
  { hasLL2method := true,
    compressPromptLL2 := fun _ _ => .ok (.other 7),
    compressPrompt := fun _ _ => .ok (.other 7) }

/-- A compressor whose calls return the bare string "squeezed". -/
def constCompressor : Compressor :=
  { hasLL2method := true,
    compressPromptLL2 := fun _ _ => .ok (.str "squeezed"),
    compressPrompt := fun _ _ => .ok (.str "squeezed") }

/-- Modelled from the spec: the falsy token set the spec pairs with the
truthy one (`0/false/no/off`); the source has no such set, which is what
claim C3's correction records. -/
def falsyTokens : List String := ["0", "false", "no", "off"]

/-! ## C1 — unrecognized compression result -/

/-- C1, counterexample: with non-empty input "hello world" and a compressor
returning an unrecognized shape (the integer 7), `compress_transcript`
returns the original text rather than failing with the
`CompressionResultUnrecognized` error the claim requires. -/
theorem C1_counterexample :
    compressorCall cfg0 badCompressor ["hello world"] = .ok (.other 7) ∧
    recognizedShape (.other 7) = false ∧
    compress_transcript cfg0 badCompressor "hello world" = .ok "hello world" :=
  ⟨rfl, rfl, rfl⟩

/-- C1, amended: when the compressor call succeeds with a result of no
recognized shape and the (trimmed) input text is non-empty, compression
returns the original trimmed text as a pass-through; the
`CompressionResultUnrecognized` failure is reserved for an empty original
text, which `compress_transcript` never passes. -/
theorem C1_unrecognized_fallback (cfg : CompressorCfg) (c : Compressor)
    (text : String) (r : PyVal)
    (hcall : compressorCall cfg c [pyStrip text] = .ok r)
    (hshape : recognizedShape r = false)
    (hne : pyStrip text ≠ "") :
    compress_transcript cfg c text = .ok (pyStrip text) := by
  have hbody : compress_transcript cfg c text =
      extract_compressed_text r (pyStrip text) := by
    unfold compress_transcript
    simp only [if_neg hne, hcall]
  rw [hbody]
  cases r with
  | str s => simp [recognizedShape] at hshape
  | dict entries =>
    cases htk : tryKeys entries extractKeys with
    | some v => simp [recognizedShape, htk] at hshape
    | none => simp [extract_compressed_text, htk, hne]
  | other t => simp [extract_compressed_text, hne]

/-- C1, witness for the amended theorem at a concrete input. -/
theorem C1_unrecognized_fallback_witness :
    compress_transcript cfg0 badCompressor " spam " = .ok (pyStrip " spam ") :=
  C1_unrecognized_fallback cfg0 badCompressor " spam " (.other 7) rfl rfl (by decide)

/-! ## C3 — boolean environment parsing -/

/-- C3, counterexample: "banana" is neither a truthy nor a falsy token, so
the claim says the documented default (`true`) is taken; `_is_truthy`
returns `false` instead. -/
theorem C3_counterexample :
    pyLower (pyStrip "banana") ∉ truthyTokens ∧
    pyLower (pyStrip "banana") ∉ falsyTokens ∧
    _is_truthy (some "banana") true = false :=
  ⟨by decide, by decide, by decide⟩

/-- C3, amended: the truthy tokens are accepted case-insensitively after
trimming; every other provided value parses as `false` regardless of the
default, which applies only when the value is absent. -/
theorem C3_truthy_parsing (v : String) (d d' : Bool) :
    _is_truthy none d = d ∧
    _is_truthy (some v) d = _is_truthy (some v) d' ∧
    (_is_truthy (some v) d = true ↔ pyLower (pyStrip v) ∈ truthyTokens) := by
  refine ⟨rfl, rfl, ?_⟩
  simp [_is_truthy]

/-! ## C4 — empty or whitespace-only input to compression -/

/-- C4, counterexample: on the whitespace-only input " " the operation
returns the trimmed text `""`, not the input unchanged. -/
theorem C4_counterexample :
    compress_transcript cfg0 badCompressor " " = .ok "" ∧ ("" : String) ≠ " " :=
  ⟨rfl, by decide⟩

/-- C4, amended: for empty or whitespace-only input the operation returns
the trimmed input (the empty string) and the result does not depend on the
compressor, i.e. no compression call is made. -/
theorem C4_blank_input (cfg : CompressorCfg) (c c' : Compressor) (text : String)
    (h : pyStrip text = "") :
    compress_transcript cfg c text = .ok (pyStrip text) ∧
    compress_transcript cfg c text = compress_transcript cfg c' text := by
  unfold compress_transcript
  simp [h]

/-- C4, witness for the amended theorem at a concrete input. -/
theorem C4_blank_input_witness :
    compress_transcript cfg0 badCompressor "  " = .ok (pyStrip "  ") ∧
    compress_transcript cfg0 badCompressor "  " =
      compress_transcript cfg0 constCompressor "  " :=
  C4_blank_input cfg0 badCompressor constCompressor "  " (by decide)

/-! ## C2 — TLS trust resolution order -/

/-- A TLS environment where the explicit CA path does not exist on disk but
the ambient `SSL_CERT_FILE` path does, and certifi is unavailable. -/
def tlsEnv0 : TlsEnv :=
  { insecureDownload := false,
    whisperSslCaFile := some "/missing/ca.pem",
    sslCertFileEnv := some "/present/ca.pem",
    certifiWhere := none,
    isFile := fun s => s == "/present/ca.pem" }

/-- C2, counterexample: when the explicit CA path's file does not exist, the
claim's resolution order falls through to the existing ambient trust-store
path, but the code skips the ambient variable entirely (it was already
absorbed into the combined `WHISPER_SSL_CA_FILE or SSL_CERT_FILE` candidate)
and falls through to the bundled default, here leaving platform default
trust in effect. -/
theorem C2_counterexample :
    configure_whisper_download_tls tlsEnv0 = .platformDefault ∧
    specTrustContext tlsEnv0 = .verified "/present/ca.pem" ∧
    TrustContext.platformDefault ≠ .verified "/present/ca.pem" :=
  ⟨rfl, rfl, by decide⟩

/-- C2, amended: with the insecure flag the non-verifying context is
installed; otherwise the explicit path, when non-empty, is the only
explicit/ambient candidate (the ambient variable is consulted only when the
explicit one is unset or empty), a single existence check applies to that
combined candidate, a failed check falls directly to the bundled default
lookup, and the bundled default's result is used without an existence
check. -/
theorem C2_trust_resolution (env : TlsEnv) :
    configure_whisper_download_tls env = amendedTrustContext env := by
  unfold configure_whisper_download_tls amendedTrustContext amendedCaResolve
  cases hi : env.insecureDownload
  · simp only [Bool.false_eq_true, if_false]
    cases ha : pyOrStr env.whisperSslCaFile env.sslCertFileEnv with
    | none => simp [pyTruthy]
    | some s =>
      by_cases hs : s = ""
      · subst hs; simp [pyTruthy]
      · by_cases hf : env.isFile s
        · simp [pyTruthy, hs, hf]
        · simp [pyTruthy, hs, hf]
  · simp

/-! ## C5 — numeric configuration invariants -/

/-- C5, counterexample: the environment value "2.5" for the compression rate
parses successfully, so startup does not fail, yet the resulting snapshot
violates the claimed invariant rate ∈ (0, 1]. -/
theorem C5_counterexample :
    resolveLlmlinguaRate (some "2.5") = some (mkRat 5 2) ∧
    ¬ (mkRat 5 2 ≤ 1) := by
  refine ⟨by decide, by decide⟩

/-- C5, amended: numeric settings that fail to parse do abort startup, and
parsed values are taken as-is with no range validation, so the rate ∈ (0, 1]
and size > 0 invariants hold for the documented defaults but are not
enforced against the environment. -/
theorem C5_numeric_config (s : String) (q : ℚ) :
    (pyFloat s = none → resolveLlmlinguaRate (some s) = none) ∧
    (pyFloat s = some q → resolveLlmlinguaRate (some s) = some q) ∧
    resolveLlmlinguaRate none = some (mkRat 3 5) ∧
    (0 < mkRat 3 5 ∧ mkRat 3 5 ≤ 1) ∧
    resolveMaxAudioBytes none = some 26214400 ∧ (0 : Int) < 26214400 := by
  refine ⟨?_, ?_, by decide, by decide, by decide, by norm_num⟩
  · intro h; simpa [resolveLlmlinguaRate] using h
  · intro h; simpa [resolveLlmlinguaRate] using h

/-- C5, witness for the amended theorem at concrete inputs: a non-numeric
rate aborts startup and a numeric one is accepted verbatim. -/
theorem C5_numeric_config_witness :
    resolveLlmlinguaRate (some "abc") = none ∧
    resolveLlmlinguaRate (some "1.25") = some (mkRat 5 4) :=
  ⟨(C5_numeric_config "abc" 0).1 (by decide),
   (C5_numeric_config "1.25" (mkRat 5 4)).2.1 (by decide)⟩

/-! ## Handler fixtures and helper lemmas -/

/-- A small valid upload (3 bytes) under the default 25 MB limit, no
compress parameter, server compression default off. -/
def reqEnv0 : RequestEnv :=
  { rawAudio := [1, 2, 3], compressParam := none, llmlinguaEnabled := false,
    maxAudioBytes := 26214400 }

/-- Faults all off: staging and transcription succeed, removal succeeds. -/
def okFe : FaultEnv :=
  { createOk := true, writeOk := true, modelResult := .ok (some " hi there "),
    removeOk := true }

/-- The staging write fails after the temporary file was created. -/
def writeFailFe : FaultEnv :=
  { createOk := true, writeOk := false, modelResult := .ok (some " hi there "),
    removeOk := true }

/-- The HTTP response of the handler never depends on whether the `finally`
block's `os.remove` succeeds: a removal failure is swallowed. -/
theorem handler_response_ignores_remove (cfg : CompressorCfg) (c : Compressor)
    (env : RequestEnv) (fe : FaultEnv) (b : Bool) :
    (transcribe_handler cfg c env { fe with removeOk := b }).response =
      (transcribe_handler cfg c env fe).response := by
  rcases fe with ⟨co, wo, mr, ro⟩
  unfold transcribe_handler
  rcases mr with m | w <;>
    simp only [] <;> split <;> try rfl
  all_goals (split <;> try rfl)
  all_goals (split <;> try rfl)
  all_goals (split <;> try rfl)
  all_goals (split <;> try rfl)

/-! ## C7 — temporary file cleanup -/

/-- C7, counterexample: on a valid upload whose staging write fails after
the temporary file has been created (`temp_path` is assigned only after the
write at line 273 succeeds, so the `finally` block at line 297 skips
removal), a staged audio file remains on the filesystem. -/
theorem C7_counterexample :
    (transcribe_handler cfg0 constCompressor reqEnv0 writeFailFe).fileCreated = true ∧
    (transcribe_handler cfg0 constCompressor reqEnv0 writeFailFe).fileRemains = true :=
  ⟨rfl, rfl⟩

/-- C7, amended: on every exit path on which the staging write completed
(success, handled failure, or unexpected failure of the transcription or
compression stages) and the removal call itself succeeds, the staged file is
removed; a failure of the removal is tolerated silently, leaving the
response unchanged.  When the staging write itself fails after the file was
created, the file is not removed. -/
theorem C7_cleanup (cfg : CompressorCfg) (c : Compressor) (env : RequestEnv)
    (fe : FaultEnv) (hw : fe.writeOk = true) (hr : fe.removeOk = true) :
    (transcribe_handler cfg c env fe).fileRemains = false ∧
    ∀ b, (transcribe_handler cfg c env { fe with removeOk := b }).response =
      (transcribe_handler cfg c env fe).response := by
  refine ⟨?_, fun b => handler_response_ignores_remove cfg c env fe b⟩
  rcases fe with ⟨co, wo, mr, ro⟩
  dsimp only at hw hr
  subst hw; subst hr
  unfold transcribe_handler
  rcases mr with m | w <;> cases co <;> (repeat' split) <;>
    first
    | rfl
    | simp_all
  all_goals (split <;> rfl)

/-- C7, witness for the amended theorem: with all faults off the staged file
is gone, and failing the removal does not change the response. -/
theorem C7_cleanup_witness :
    (transcribe_handler cfg0 constCompressor reqEnv0 okFe).fileRemains = false ∧
    (transcribe_handler cfg0 constCompressor reqEnv0
        { okFe with removeOk := false }).response =
      (transcribe_handler cfg0 constCompressor reqEnv0 okFe).response :=
  ⟨(C7_cleanup cfg0 constCompressor reqEnv0 okFe rfl rfl).1,
   (C7_cleanup cfg0 constCompressor reqEnv0 okFe rfl rfl).2 false⟩

/-! ## C8 — upload validation -/

/-- C8: an empty payload is rejected with 400 and an oversized one (any
nonzero length strictly above the limit, in particular one byte over) with
413; in both cases no temporary file is created and no model work is
attempted. -/
theorem C8_validation (cfg : CompressorCfg) (c : Compressor) (env : RequestEnv)
    (fe : FaultEnv) :
    (env.rawAudio.length = 0 →
      (transcribe_handler cfg c env fe).response =
        .error (.httpError 400 "Empty audio upload") ∧
      (transcribe_handler cfg c env fe).fileCreated = false ∧
      (transcribe_handler cfg c env fe).modelInvoked = false) ∧
    (env.rawAudio.length ≠ 0 →
     (env.rawAudio.length : Int) > env.maxAudioBytes →
      (transcribe_handler cfg c env fe).response =
        .error (.httpError 413 ("Audio too large. Max allowed is " ++
          toString env.maxAudioBytes ++ " bytes")) ∧
      (transcribe_handler cfg c env fe).fileCreated = false ∧
      (transcribe_handler cfg c env fe).modelInvoked = false) := by
  constructor
  · intro h
    unfold transcribe_handler
    rw [if_pos h]
    exact ⟨rfl, rfl, rfl⟩
  · intro h hgt
    unfold transcribe_handler
    rw [if_neg h, if_pos hgt]
    exact ⟨rfl, rfl, rfl⟩

/-- A zero-byte upload environment. -/
def emptyEnv : RequestEnv :=
  { rawAudio := [], compressParam := none, llmlinguaEnabled := true,
    maxAudioBytes := 26214400 }

/-- A 3-byte upload against a 2-byte limit: one byte over the maximum. -/
def oversizeEnv : RequestEnv :=
  { rawAudio := [0, 0, 0], compressParam := none, llmlinguaEnabled := true,
    maxAudioBytes := 2 }

/-- C8, witness at concrete inputs: 0 bytes yields 400 and max+1 bytes
yields 413, both without staging or model work. -/
theorem C8_validation_witness :
    ((transcribe_handler cfg0 constCompressor emptyEnv okFe).response =
        .error (.httpError 400 "Empty audio upload") ∧
      (transcribe_handler cfg0 constCompressor emptyEnv okFe).fileCreated = false ∧
      (transcribe_handler cfg0 constCompressor emptyEnv okFe).modelInvoked = false) ∧
    ((transcribe_handler cfg0 constCompressor oversizeEnv okFe).response =
        .error (.httpError 413 ("Audio too large. Max allowed is " ++
          toString oversizeEnv.maxAudioBytes ++ " bytes")) ∧
      (transcribe_handler cfg0 constCompressor oversizeEnv okFe).fileCreated = false ∧
      (transcribe_handler cfg0 constCompressor oversizeEnv okFe).modelInvoked = false) :=
  ⟨(C8_validation cfg0 constCompressor emptyEnv okFe).1 rfl,
   (C8_validation cfg0 constCompressor oversizeEnv okFe).2 (by decide) (by decide)⟩

/-! ## C9 — per-request compression decision -/

/-- After validation passes, every branch of the handler records the same
`should_compress` decision, computed from the request parameter or, absent
one, the server-wide default. -/
theorem handler_shouldCompress (cfg : CompressorCfg) (c : Compressor)
    (env : RequestEnv) (fe : FaultEnv)
    (hne : env.rawAudio.length ≠ 0)
    (hsize : ¬ ((env.rawAudio.length : Int) > env.maxAudioBytes)) :
    (transcribe_handler cfg c env fe).shouldCompress =
      some (match env.compressParam with
            | some v => _is_truthy (some v)
            | none => env.llmlinguaEnabled) := by
  unfold transcribe_handler
  rw [if_neg hne, if_neg hsize]
  (repeat' split) <;> first | rfl | (dsimp only; split <;> rfl)

/-- C9: the compression decision is per-request — with an explicit
`compress` parameter the decision is that parameter's parse and the
server-wide default is irrelevant; with no parameter the decision is the
server-wide default. -/
theorem C9_compress_decision (cfg : CompressorCfg) (c : Compressor)
    (env : RequestEnv) (fe : FaultEnv)
    (hne : env.rawAudio.length ≠ 0)
    (hsize : ¬ ((env.rawAudio.length : Int) > env.maxAudioBytes)) :
    (∀ v, env.compressParam = some v →
      (transcribe_handler cfg c env fe).shouldCompress =
        some (_is_truthy (some v)) ∧
      ∀ b, (transcribe_handler cfg c { env with llmlinguaEnabled := b }
          fe).shouldCompress =
        (transcribe_handler cfg c env fe).shouldCompress) ∧
    (env.compressParam = none →
      (transcribe_handler cfg c env fe).shouldCompress =
        some env.llmlinguaEnabled) := by
  refine ⟨fun v hv => ⟨?_, fun b => ?_⟩, fun hn => ?_⟩
  · rw [handler_shouldCompress cfg c env fe hne hsize, hv]
  · rw [handler_shouldCompress cfg c env fe hne hsize,
      handler_shouldCompress cfg c { env with llmlinguaEnabled := b } fe hne hsize]
    simp only [hv]
  · rw [handler_shouldCompress cfg c env fe hne hsize, hn]

/-- A valid upload carrying an explicit falsy `compress` parameter while the
server default is enabled. -/
def overrideEnv : RequestEnv :=
  { rawAudio := [1, 2, 3], compressParam := some "false",
    llmlinguaEnabled := true, maxAudioBytes := 26214400 }

/-- C9, witness: `compress=false` overrides an enabled server default, and
with no parameter the server default (off in `reqEnv0`) is used. -/
theorem C9_compress_decision_witness :
    (transcribe_handler cfg0 constCompressor overrideEnv okFe).shouldCompress =
      some (_is_truthy (some "false")) ∧
    _is_truthy (some "false") = false ∧
    (transcribe_handler cfg0 constCompressor reqEnv0 okFe).shouldCompress =
      some false :=
  ⟨((C9_compress_decision cfg0 constCompressor overrideEnv okFe (by decide)
      (by decide)).1 "false" rfl).1,
   by decide,
   (C9_compress_decision cfg0 constCompressor reqEnv0 okFe (by decide)
      (by decide)).2 rfl⟩

/-! ## C10 — pass-through when compression is disabled -/

/-- C10: when compression is disabled for the request (no parameter and the
server default off, or an explicit falsy parameter) and the pipeline reaches
a successful transcription, the returned text is exactly the transcription
service's output, for every compressor. -/
theorem C10_passthrough (cfg : CompressorCfg) (c : Compressor)
    (env : RequestEnv) (fe : FaultEnv) (w : Option String)
    (hne : env.rawAudio.length ≠ 0)
    (hsize : ¬ ((env.rawAudio.length : Int) > env.maxAudioBytes))
    (hc : fe.createOk = true) (hw : fe.writeOk = true)
    (hm : fe.modelResult = .ok w)
    (hdis : (env.compressParam = none ∧ env.llmlinguaEnabled = false) ∨
      (∃ v, env.compressParam = some v ∧ _is_truthy (some v) = false)) :
    (transcribe_handler cfg c env fe).response = .ok (transcriptionResult w) := by
  have hsc : (match env.compressParam with
      | some v => _is_truthy (some v)
      | none => env.llmlinguaEnabled) = false := by
    rcases hdis with ⟨h1, h2⟩ | ⟨v, h1, h2⟩ <;> rw [h1] <;> simp [h2]
  unfold transcribe_handler
  rw [if_neg hne, if_neg hsize]
  simp only [hsc, hc, hw, hm, Bool.not_true, not_false_eq_true, if_false,
    Bool.false_eq_true, not_true_eq_false, if_true]

/-- C10, witness: server default off, no parameter, successful transcription
" hi there " returns its trimmed text unmodified. -/
theorem C10_passthrough_witness :
    (transcribe_handler cfg0 constCompressor reqEnv0 okFe).response =
      .ok (transcriptionResult (some " hi there ")) :=
  C10_passthrough cfg0 constCompressor reqEnv0 okFe (some " hi there ")
    (by decide) (by decide) rfl rfl rfl (Or.inl ⟨rfl, rfl⟩)

end WisprClaw
